import Mathlib

/-!
Verification of the Null-propagating pipeline evaluator of `larc`
(`src/larc/common.py`): the `_null` sentinel class, its singleton `Null`,
`is_null`, `maybe`, and `maybe_pipe`.

Python values relevant to this development are embedded as the inductive
type `Value`; `Value.none` is Python's `None` and `Value.null` is the
`Null` singleton (the unique instance of class `_null`).  Pipeline stages
are embedded as functions `Value → Except PyErr Value`: a stage either
returns a value or raises, and a raised exception carries the flag
`isExc` recording whether it is an instance of Python's `Exception`
class (`False` for `BaseException`-only exceptions such as `SystemExit`
and `KeyboardInterrupt`, which an `except Exception:` clause does not
catch).
-/

/-- Embedded Python values: `None`, the `Null` sentinel, integers and
strings.  Stage functions are kept outside this type so that equality
stays decidable. -/
inductive Value where
  | none : Value
  | null : Value
  | int : Int → Value
  | str : String → Value
deriving DecidableEq

/-- Embedded Python exception: `isExc` is true iff the raised object is
an instance of the `Exception` class (the only exceptions caught by the
`except Exception:` clause in `maybe_pipe`). -/
structure PyErr where
  isExc : Bool
deriving DecidableEq

/-- A pipeline stage: a single-argument Python callable that either
returns a value or raises. -/
def Stage : Type := Value → Except PyErr Value

/-- Embeds `is_null` (common.py line 942): `v is None or v is Null`. -/
def is_null : Value → Bool
  | Value.none => true
  | Value.null => true
  | _ => false

/-- Embeds `maybe(value, default=None)` (common.py lines 946-962):

    if is_null(value):
        if default is not None:
            return default
        return Null
    return value

The `d` argument is the `default` keyword; callers that omit it pass
`Value.none`, matching the Python default `None`. -/
def maybe (value : Value) (d : Value) : Value :=
  if is_null value then
    if d ≠ Value.none then d
    else Value.null
  else value

/-- Written from the spec's words for `maybe`, to be compared with the
source embedding: "if `value` is absent, return `default` if non-null
else `Absent`; otherwise return `value` unchanged". -/
def maybe_spec (value : Value) (d : Value) : Value :=
  if is_null value then
    if is_null d = false then d
    else Value.null
  else value

/-- Embeds the `for f in functions:` loop body of `maybe_pipe`
(common.py lines 973-980), additionally counting how many stage calls
were made (instrumentation of the loop, for the no-further-stage-runs
claims).  On `f(value)`:

* raised exception that `except Exception:` catches (`isExc = true`):
  the error is logged (a side effect not modelled) and the loop returns
  `Null if default is None else default`;
* raised exception not caught (`isExc = false`): it propagates;
* returned value that `is_null`: the loop returns
  `Null if default is None else default`;
* otherwise the loop continues with the new value.

When the list is exhausted the final value is returned. -/
def maybe_pipe_go (d : Value) : Value → List Stage → Except PyErr Value × Nat
  | v, [] => (Except.ok v, 0)
  | v, f :: fs =>
    match f v with
      | Except.error e =>
        if e.isExc then
          (Except.ok (if d = Value.none then Value.null else d), 1)
        else
          (Except.error e, 1)
      | Except.ok w =>
        if is_null w then
          (Except.ok (if d = Value.none then Value.null else d), 1)
        else
          let r := maybe_pipe_go d w fs
          (r.1, r.2 + 1)

/-- Embeds `maybe_pipe(value, *functions, default=None)` (common.py
lines 964-981) with its stage-invocation count:

    if is_null(value):
        return Null
    for f in functions:
        ...

Note the absent-initial-value branch returns `Null` without consulting
`default`. -/
def maybe_pipe_run (value : Value) (functions : List Stage) (d : Value) :
    Except PyErr Value × Nat :=
  if is_null value then (Except.ok Value.null, 0)
  else maybe_pipe_go d value functions

/-- The caller-visible result of `maybe_pipe` (the invocation count
dropped). -/
def maybe_pipe (value : Value) (functions : List Stage) (d : Value) :
    Except PyErr Value :=
  (maybe_pipe_run value functions d).1

/-- Runs a prefix of the pipeline assuming every stage succeeds with a
non-absent result: returns `some w` when each stage in turn returns a
value that is not `None`/`Null`, and `Option.none` as soon as one raises
or returns an absent value.  Used to say "the pipeline reaches stage `f`
carrying value `w`". -/
def stages_all_fine : Value → List Stage → Option Value
  | v, [] => some v
  | v, f :: fs =>
    match f v with
    | Except.error _ => Option.none
    | Except.ok w => if is_null w then Option.none else stages_all_fine w fs

/-- Embeds `_null.__eq__` (common.py lines 904-905): it returns `False`
for every argument (never `NotImplemented`). -/
def null_eq (_other : Value) : Bool := false

/-- Embeds Python `==` on the embedded value universe.  When either side
is the `Null` sentinel the result comes from `_null.__eq__` (the left
operand's `__eq__` when `Null` is on the left; when `Null` is on the
right, `None`/`int`/`str` return `NotImplemented` against a `_null`
operand and Python falls back to the reflected `_null.__eq__`, again
constantly `False`).  The remaining rows are the language's `==` on
`None`, `int` and `str`. -/
def pyEq : Value → Value → Bool
  | Value.null, other => null_eq other
  | other, Value.null => null_eq other
  | Value.none, Value.none => true
  | Value.int a, Value.int b => a = b
  | Value.str a, Value.str b => a = b
  | _, _ => false

/-- Result of a Python attribute access: an ordinary value, or a
function object (needed because `_null.__getattr__` returns a lambda for
one special key). -/
inductive AttrResult where
  | val : Value → AttrResult
  | func : (List Value → Value) → AttrResult

/-- Embeds `_null.__getattr__` (common.py line 890):

    if key == '__wrapped__':
        return lambda *a, **kw: None
    return Null

This is the dynamic-lookup hook, called for attribute names not found
through the normal class lookup. -/
def null_getattr (key : String) : AttrResult :=
  if key = "__wrapped__" then AttrResult.func (fun _ => Value.none)
  else AttrResult.val Value.null

/-- Embeds `_null.__getitem__` (common.py line 895): indexing the
sentinel returns `Null` for every key. -/
def null_getitem (_key : Value) : Value := Value.null

/-- Embeds `_null.__call__` (common.py line 913): calling the
sentinel returns `Null` for every argument list. -/
def null_call (_args : List Value) : Value := Value.null

/-- Embeds `_null.__next__` (common.py line 887): `next(Null)`
returns `Null` (a normal return, so no `StopIteration` is ever raised).
The `self` argument is ignored by the method. -/
def null_next (_v : Value) : Value := Value.null

/-- The special-method names defined in the class body of `_null`
(common.py lines 859-938), as Python 3 sees them on the type.  Note the
class defines the Python 2 names `__div__`/`__rdiv__` for division; the
Python 3 slots `__truediv__`/`__rtruediv__` are absent. -/
def null_class_methods : List String :=
  ["__new__", "__repr__", "__bool__", "__len__", "__contains__",
   "__next__", "__getattr__", "__getitem__", "__lt__", "__gt__",
   "__eq__", "__le__", "__ge__", "__call__", "__add__", "__radd__",
   "__sub__", "__rsub__", "__mul__", "__rmul__", "__div__", "__rdiv__"]

/-- Embeds Python 3 binary-operator dispatch for `Null op x` where `x`
is an ordinary value (e.g. an `int`): the interpreter looks the slot
(`__add__`, `__truediv__`, …) up on `type(Null)` — implicit special
method lookup bypasses `__getattr__` — and each such method defined by
`_null` returns `Null`; if the slot is missing, the right operand's
reflected method is tried, which returns `NotImplemented` for a `_null`
operand, so the operation raises `TypeError`. -/
def null_op_left (slot : String) : Except String Value :=
  if slot ∈ null_class_methods then Except.ok Value.null
  else Except.error "TypeError"

/-- Embeds Python 3 binary-operator dispatch for `x op Null` where `x`
is an ordinary value: `x`'s forward method returns `NotImplemented` for
a `_null` operand, so the interpreter looks the reflected slot
(`__radd__`, `__rtruediv__`, …) up on `type(Null)`; each such method
defined by `_null` returns `Null`, and if the slot is missing the
operation raises `TypeError`. -/
def null_op_right (rslot : String) : Except String Value :=
  if rslot ∈ null_class_methods then Except.ok Value.null
  else Except.error "TypeError"

/-- Helper: running the instrumented loop on a prefix of stages that all
succeed with non-absent results, followed by a stage that raises a
caught exception or returns an absent value, yields the
default-or-`Null` result after exactly one more stage call, independent
of the stages behind the failing one. -/
theorem maybe_pipe_go_fail (d : Value) (f : Stage) (fs2 : List Stage) :
    ∀ (fs1 : List Stage) (v w : Value),
    stages_all_fine v fs1 = some w →
    ((∃ e, f w = Except.error e ∧ e.isExc = true) ∨
     (∃ u, f w = Except.ok u ∧ is_null u = true)) →
    maybe_pipe_go d v (fs1 ++ f :: fs2) =
      (Except.ok (if d = Value.none then Value.null else d),
       fs1.length + 1) := by
  intro fs1
  induction fs1 with
  | nil =>
    intro v w hfine hfail
    simp [stages_all_fine] at hfine
    subst hfine
    rcases hfail with ⟨e, hfe, hexc⟩ | ⟨u, hfu, hnu⟩
    · simp [maybe_pipe_go, hfe, hexc]
    · simp [maybe_pipe_go, hfu, hnu]
  | cons g gs ih =>
    intro v w hfine hfail
    unfold stages_all_fine at hfine
    cases hgv : g v with
    | error e => rw [hgv] at hfine; simp at hfine
    | ok x =>
      rw [hgv] at hfine
      by_cases hx : is_null x = true
      · simp [hx] at hfine
      · simp [hx] at hfine
        have hrec := ih x w hfine hfail
        simp [maybe_pipe_go, hgv, hx, hrec]

/-- C1 counterexample: a stage that raises a `BaseException`-only
exception (e.g. `SystemExit`) with a default supplied: `maybe_pipe`
propagates the exception instead of returning the default `9` the claim
promises for a raising stage. -/
theorem maybe_pipe_base_exception_not_defaulted :
    maybe_pipe (Value.int 2) [fun _ => Except.error (PyErr.mk false)]
      (Value.int 9) = Except.error (PyErr.mk false) ∧
    maybe_pipe (Value.int 2) [fun _ => Except.error (PyErr.mk false)]
      (Value.int 9) ≠ Except.ok (Value.int 9) := by
  refine ⟨rfl, ?_⟩
  intro h
  simp [maybe_pipe, maybe_pipe_run, maybe_pipe_go, is_null] at h

/-- C1 (amended): for every non-absent initial value, stage list and
default, if the pipeline reaches a stage that raises an exception that
`except Exception:` catches (an `Exception` instance), or returns an
absent value, `maybe_pipe` returns the supplied default (else `Null`),
exactly one more stage call is made — so no stage after the failing one
runs and the result does not depend on them — and the raising case and
the absent-result case produce the identical result.  (A stage raising
a `BaseException`-only exception instead propagates it.) -/
theorem maybe_pipe_failure_returns_default (v w : Value)
    (fs1 fs2 : List Stage) (f : Stage) (d : Value)
    (hv : is_null v = false)
    (hfine : stages_all_fine v fs1 = some w)
    (hfail : (∃ e, f w = Except.error e ∧ e.isExc = true) ∨
             (∃ u, f w = Except.ok u ∧ is_null u = true)) :
    maybe_pipe_run v (fs1 ++ f :: fs2) d =
      (Except.ok (if d = Value.none then Value.null else d),
       fs1.length + 1) := by
  have h := maybe_pipe_go_fail d f fs2 fs1 v w hfine hfail
  simp [maybe_pipe_run, hv, h]

/-- Witness for C1: a one-stage pipeline whose stage returns `None`
short-circuits to `Null` after that single stage call. -/
theorem maybe_pipe_failure_returns_default_witness :
    maybe_pipe_run (Value.int 1) [fun _ => Except.ok Value.none]
      Value.none = (Except.ok Value.null, 1) := by
  have h := maybe_pipe_failure_returns_default (Value.int 1) (Value.int 1)
    [] [] (fun _ => Except.ok Value.none) Value.none rfl rfl
    (Or.inr ⟨Value.none, rfl, rfl⟩)
  simpa using h

/-- C2 (amended): when the initial value is absent, `maybe_pipe` returns
`Null` with zero stage calls — regardless of the stages and, contrary to
the claim's "or default if supplied", regardless of the default. -/
theorem maybe_pipe_absent_initial (v : Value) (fs : List Stage)
    (d : Value) (hv : is_null v = true) :
    maybe_pipe_run v fs d = (Except.ok Value.null, 0) := by
  simp [maybe_pipe_run, hv]

/-- Witness for C2's amended theorem: the `Null` sentinel piped with a
supplied default yields `Null` and zero stage calls. -/
theorem maybe_pipe_absent_initial_witness :
    maybe_pipe_run Value.null [] (Value.int 5) =
      (Except.ok Value.null, 0) :=
  maybe_pipe_absent_initial Value.null [] (Value.int 5) rfl

/-- C2 counterexample: with absent initial value `None` and supplied
default `5`, `maybe_pipe` returns `Null`, not the default the claim
promises. -/
theorem maybe_pipe_absent_initial_ignores_default :
    maybe_pipe Value.none [] (Value.int 5) = Except.ok Value.null ∧
    maybe_pipe Value.none [] (Value.int 5) ≠ Except.ok (Value.int 5) := by
  refine ⟨rfl, ?_⟩
  intro h
  simp [maybe_pipe, maybe_pipe_run, is_null] at h

/-- C3 counterexample: attribute access for the name `__wrapped__` on
the sentinel returns a function object (`lambda *a, **kw: None`), not
the sentinel. -/
theorem null_getattr_wrapped_not_null :
    null_getattr "__wrapped__" ≠ AttrResult.val Value.null := by
  simp [null_getattr]

/-- C3 (amended): dynamic attribute access on the sentinel returns the
sentinel for every name except `__wrapped__`, and indexing and calling
the sentinel return the sentinel for every key and argument list; none
of these operations raises. -/
theorem null_access_degrades (key : String) (k : Value)
    (args : List Value) (hkey : key ≠ "__wrapped__") :
    null_getattr key = AttrResult.val Value.null ∧
    null_getitem k = Value.null ∧
    null_call args = Value.null := by
  refine ⟨?_, rfl, rfl⟩
  simp [null_getattr, hkey]

/-- Witness for C3's amended theorem at a concrete attribute name, key
and argument list. -/
theorem null_access_degrades_witness :
    null_getattr "field" = AttrResult.val Value.null ∧
    null_getitem (Value.int 0) = Value.null ∧
    null_call [] = Value.null :=
  null_access_degrades "field" (Value.int 0) [] (by decide)

/-- C4: `maybe` agrees everywhere with the spec's description ("if
`value` is absent, return `default` if non-null else `Absent`; otherwise
return `value` unchanged"), and the three quoted examples hold:
`maybe(None) = Null`, `maybe(None, default=5) = 5`, `maybe(7) = 7`. -/
theorem maybe_matches_spec :
    (∀ v d, maybe v d = maybe_spec v d) ∧
    maybe Value.none Value.none = Value.null ∧
    maybe Value.none (Value.int 5) = Value.int 5 ∧
    maybe (Value.int 7) Value.none = Value.int 7 := by
  refine ⟨?_, rfl, rfl, rfl⟩
  intro v d
  cases v <;> cases d <;> rfl

/-- C5, the code evaluated at the failing inputs: `+`, `-` and `*` on
the sentinel return the sentinel from either side, but `/` raises
`TypeError` from either side, because `_null` defines the Python 2
names `__div__`/`__rdiv__` and Python 3 dispatches division through
`__truediv__`/`__rtruediv__`, which the class does not define. -/
theorem null_division_raises :
    null_op_left "__add__" = Except.ok Value.null ∧
    null_op_right "__radd__" = Except.ok Value.null ∧
    null_op_left "__sub__" = Except.ok Value.null ∧
    null_op_right "__rsub__" = Except.ok Value.null ∧
    null_op_left "__mul__" = Except.ok Value.null ∧
    null_op_right "__rmul__" = Except.ok Value.null ∧
    null_op_left "__truediv__" = Except.error "TypeError" ∧
    null_op_right "__rtruediv__" = Except.error "TypeError" :=
  ⟨rfl, rfl, rfl, rfl, rfl, rfl, rfl, rfl⟩

/-- C6: a pipeline with zero stages returns a non-absent initial value
unchanged, whatever the default. -/
theorem maybe_pipe_empty_stages (v d : Value) (hv : is_null v = false) :
    maybe_pipe v [] d = Except.ok v := by
  simp [maybe_pipe, maybe_pipe_run, maybe_pipe_go, hv]

/-- Witness for C6 at the value `7`. -/
theorem maybe_pipe_empty_stages_witness :
    maybe_pipe (Value.int 7) [] Value.none = Except.ok (Value.int 7) :=
  maybe_pipe_empty_stages (Value.int 7) Value.none rfl

/-- C7 counterexample: a stage raising a `BaseException`-only exception
(`isExc = false`, e.g. `SystemExit`) propagates out of `maybe_pipe`: the
source's `except Exception:` clause does not catch it, so `maybe_pipe`
is not total over all raising stages. -/
theorem maybe_pipe_propagates_base_exception :
    maybe_pipe (Value.int 1) [fun _ => Except.error (PyErr.mk false)]
      Value.none = Except.error (PyErr.mk false) := rfl

/-- Helper: the instrumented loop produces an `Except.ok` result
whenever every exception its stages can raise is an instance of
`Exception` (and hence caught). -/
theorem maybe_pipe_go_total (d : Value) :
    ∀ (fs : List Stage) (v : Value),
    (∀ f ∈ fs, ∀ x e, f x = Except.error e → e.isExc = true) →
    ∃ r, (maybe_pipe_go d v fs).1 = Except.ok r := by
  intro fs
  induction fs with
  | nil => intro v _; exact ⟨v, rfl⟩
  | cons g gs ih =>
    intro v hfs
    cases hgv : g v with
    | error e =>
      have hexc : e.isExc = true := hfs g (by simp) v e hgv
      exact ⟨if d = Value.none then Value.null else d,
        by simp [maybe_pipe_go, hgv, hexc]⟩
    | ok w =>
      by_cases hw : is_null w = true
      · exact ⟨if d = Value.none then Value.null else d,
          by simp [maybe_pipe_go, hgv, hw]⟩
      · obtain ⟨r, hr⟩ := ih w (fun f hf => hfs f (by simp [hf]))
        exact ⟨r, by simp [maybe_pipe_go, hgv, hw, hr]⟩

/-- C7 (amended): for every value, default, and stage list whose stages
raise only `Exception` instances (the exceptions `except Exception:`
catches), `maybe_pipe` is total: it returns a result — the final value,
the default, or `Null` — and propagates nothing; `BaseException`-only
exceptions such as `SystemExit` are the one exclusion. -/
theorem maybe_pipe_total_for_exception_stages (v : Value)
    (fs : List Stage) (d : Value)
    (hfs : ∀ f ∈ fs, ∀ x e, f x = Except.error e → e.isExc = true) :
    ∃ r, maybe_pipe v fs d = Except.ok r := by
  unfold maybe_pipe maybe_pipe_run
  by_cases hv : is_null v = true
  · exact ⟨Value.null, by simp [hv]⟩
  · obtain ⟨r, hr⟩ := maybe_pipe_go_total d fs v hfs
    exact ⟨r, by simp [hv, hr]⟩

/-- Witness for C7's amended theorem: a one-stage identity pipeline
returns an `ok` result. -/
theorem maybe_pipe_total_for_exception_stages_witness :
    ∃ r, maybe_pipe (Value.int 10) [fun x => Except.ok x] Value.none =
      Except.ok r :=
  maybe_pipe_total_for_exception_stages (Value.int 10)
    [fun x => Except.ok x] Value.none
    (by intro f hf x e he; simp at hf; subst hf; simp at he)

/-- C8 counterexample: at `v = None`, `maybe(maybe(v)) == maybe(v)`
evaluates to `False`: both sides are the `Null` sentinel and
`_null.__eq__` is constantly `False`. -/
theorem maybe_idempotent_eq_fails :
    pyEq (maybe (maybe Value.none Value.none) Value.none)
      (maybe Value.none Value.none) = false := rfl

/-- C8 (amended): `maybe` is idempotent up to object identity —
`maybe(maybe(v))` is the very same value as `maybe(v)` — but the
claim's `==` test fails for absent `v` because the sentinel's `__eq__`
is constantly `False`. -/
theorem maybe_idempotent (v : Value) :
    maybe (maybe v Value.none) Value.none = maybe v Value.none := by
  cases v <;> rfl

/-- C9: equality on the `Null` sentinel is constantly false — `Null == x`
evaluates to `False` for every `x`, including `x = Null` itself — so
absence cannot be detected with `==`; `is_null` does detect the
sentinel. -/
theorem null_eq_constantly_false :
    (∀ x, pyEq Value.null x = false) ∧
    pyEq Value.null Value.null = false ∧
    is_null Value.null = true :=
  ⟨fun x => by cases x <;> rfl, rfl, rfl⟩

/-- C10: any number of successive applications of `_null.__next__`
starting from `Null` yields `Null`; each call returns normally, so no
`StopIteration` ever ends the stream and iteration never terminates. -/
theorem null_next_iterations (n : Nat) :
    null_next^[n] Value.null = Value.null := by
  induction n with
  | zero => rfl
  | succ k ih => rw [Function.iterate_succ_apply]; exact ih
